import Mathlib

set_option maxHeartbeats 1000000

/-!
Shallow embedding of the drive-mcp structured-document mutation engine.

The data model mirrors the Google Docs / Slides API structures used by
`drive.go` (only the fields the code reads), the operations mirror
`UpdateDocumentContent`, `GetDocumentContent` and `UpdatePresentationSlide`
from `drive.go`, and the tool handlers mirror `createUpdateDocumentHandler`
and `createUpdatePresentationHandler` from `main.go`.  The remote services
are modelled as explicit parameters, and each operation returns its Go
result together with the trace of remote calls it issued.
-/

/-- A run of literal text (docs/slides API TextRun, field Content). -/
structure TextRun where
  content : String
  deriving DecidableEq

/-- One element of a paragraph (docs API ParagraphElement): may carry a text run. -/
structure ParagraphElement where
  textRun : Option TextRun
  deriving DecidableEq

/-- A paragraph (docs API Paragraph): ordered paragraph elements. -/
structure Paragraph where
  elements : List ParagraphElement
  deriving DecidableEq

/-- A structural element of a document body (docs API StructuralElement):
an end index in the global character index space, and optionally a paragraph
(only paragraph elements carry extractable text). -/
structure StructuralElement where
  endIndex : Int
  paragraph : Option Paragraph
  deriving DecidableEq

/-- A document (docs API Document, restricted to Body.Content). -/
structure Document where
  content : List StructuralElement
  deriving DecidableEq

/-- A half-open character range (docs API Range). -/
structure DocsRange where
  startIndex : Int
  endIndex : Int
  deriving DecidableEq

/-- A docs batch-update request (docs API Request): delete a content range,
or insert text at a location index. -/
inductive DocsRequest where
  | deleteContentRange (range : DocsRange)
  | insertText (index : Int) (text : String)
  deriving DecidableEq

/-- Go error values as the code builds them: a fresh message from errors.New,
or a wrapping message from fmt.Errorf with a cause. -/
inductive GoError where
  | simple (msg : String)
  | wrapped (msg : String) (cause : GoError)
  deriving DecidableEq

/-- The rendered Go error string: wrapping concatenates the message onto the
cause's rendering, as fmt.Errorf with a trailing w verb does. -/
def GoError.message : GoError → String
  | .simple m => m
  | .wrapped m c => m ++ c.message

/-- A text element inside a shape's text body (slides API TextElement). -/
structure TextElement where
  textRun : Option TextRun
  deriving DecidableEq

/-- The text body owned by a shape (slides API TextContent). -/
structure TextContent where
  textElements : List TextElement
  deriving DecidableEq

/-- A shape on a slide (slides API Shape): may own a text body. -/
structure Shape where
  text : Option TextContent
  deriving DecidableEq

/-- A page element of a slide (slides API PageElement): an object identifier
and optionally a shape. -/
structure PageElement where
  objectId : String
  shape : Option Shape
  deriving DecidableEq

/-- One slide (slides API Page): ordered page elements. -/
structure Slide where
  pageElements : List PageElement
  deriving DecidableEq

/-- A presentation (slides API Presentation): ordered slides. -/
structure Presentation where
  slides : List Slide
  deriving DecidableEq

/-- A slides batch-update request (slides API Request): delete the text of an
object over a range type, or insert text at an insertion index of an object. -/
inductive SlidesRequest where
  | deleteText (objectId : String) (rangeType : String)
  | insertText (objectId : String) (insertionIndex : Int) (text : String)
  deriving DecidableEq

/-- A remote API call issued by the engine, recorded in order of issue. -/
inductive RemoteCall where
  | docsGet (documentID : String)
  | docsBatchUpdate (documentID : String) (requests : List DocsRequest)
  | slidesGet (presentationID : String)
  | slidesBatchUpdate (presentationID : String) (requests : List SlidesRequest)
  deriving DecidableEq

/-- Behaviour of the docs remote service during one invocation: the outcome
of the Documents.Get call and the outcome of the Documents.BatchUpdate call. -/
structure DocsRemote where
  getResult : Except GoError Document
  batchResult : Except GoError Unit

/-- Behaviour of the slides remote service during one invocation. -/
structure SlidesRemote where
  getResult : Except GoError Presentation
  batchResult : Except GoError Unit

/-- The end-index computation of UpdateDocumentContent (drive.go): fold over
the body content keeping the largest element end index, accumulator
initialized to 1. -/
def computeEndIndex (doc : Document) : Int :=
  doc.content.foldl (fun acc e => if e.endIndex > acc then e.endIndex else acc) 1

/-- The batch-update request list built by UpdateDocumentContent (drive.go):
delete the range [1, endIndex - 1), then insert the new content at index 1. -/
def planDocumentReplacement (doc : Document) (content : String) : List DocsRequest :=
  [DocsRequest.deleteContentRange { startIndex := 1, endIndex := computeEndIndex doc - 1 },
   DocsRequest.insertText 1 content]

/-- UpdateDocumentContent (drive.go), with the remote service modelled
explicitly: returns the Go result together with the trace of remote calls. -/
def UpdateDocumentContent (remote : DocsRemote) (documentID content : String) :
    Except GoError Unit × List RemoteCall :=
  if documentID = "" then
    (Except.error (GoError.simple "document ID is empty"), [])
  else
    match remote.getResult with
    | Except.error e =>
        (Except.error (GoError.wrapped "failed to get document: " e),
         [RemoteCall.docsGet documentID])
    | Except.ok doc =>
        let requests := planDocumentReplacement doc content
        match remote.batchResult with
        | Except.error e =>
            (Except.error (GoError.wrapped "failed to update document: " e),
             [RemoteCall.docsGet documentID, RemoteCall.docsBatchUpdate documentID requests])
        | Except.ok _ =>
            (Except.ok (),
             [RemoteCall.docsGet documentID, RemoteCall.docsBatchUpdate documentID requests])

/-- The extraction loop of GetDocumentContent (drive.go): concatenate the
text-run contents of the paragraph elements, in order. -/
def extractText (doc : Document) : String :=
  doc.content.foldl (fun acc el =>
    match el.paragraph with
    | some p =>
        p.elements.foldl (fun acc2 pe =>
          match pe.textRun with
          | some tr => acc2 ++ tr.content
          | none => acc2) acc
    | none => acc) ""

/-- Whether a page element owns a text body, exactly the condition
Shape not nil and Shape.Text not nil of the clear loop (drive.go). -/
def PageElement.hasText (e : PageElement) : Bool :=
  match e.shape with
  | some s => s.text.isSome
  | none => false

/-- The clear loop of UpdatePresentationSlide (drive.go): one delete-all-text
request per text-bearing page element, in page-element order. -/
def clearRequests (l : List PageElement) : List SlidesRequest :=
  l.filterMap fun e =>
    if e.hasText then some (SlidesRequest.deleteText e.objectId "ALL") else none

/-- The title/content inference loop of UpdatePresentationSlide (drive.go):
for each element whose Shape is not nil, the title slot is filled while it is
the empty string; otherwise, if the content slot is the empty string it is
filled and the loop breaks.  Elements without a shape are skipped. -/
def findRegions : List PageElement → String → String → String × String
  | [], t, c => (t, c)
  | e :: rest, t, c =>
    match e.shape with
    | some _ =>
        if t = "" then findRegions rest e.objectId c
        else if c = "" then (t, e.objectId)
        else findRegions rest t c
    | none => findRegions rest t c

/-- The request list built by UpdatePresentationSlide (drive.go) for one
slide: the clears, then the conditional title insert, then the conditional
content insert, each insert guarded by a non-empty object id and non-empty
new text. -/
def planSlideRewrite (slide : Slide) (title content : String) : List SlidesRequest :=
  let requests := clearRequests slide.pageElements
  let ids := findRegions slide.pageElements "" ""
  let requests :=
    if ids.1 ≠ "" ∧ title ≠ "" then
      requests ++ [SlidesRequest.insertText ids.1 0 title]
    else requests
  if ids.2 ≠ "" ∧ content ≠ "" then
    requests ++ [SlidesRequest.insertText ids.2 0 content]
  else requests

/-- The out-of-range error message of UpdatePresentationSlide (drive.go). -/
def outOfRangeMessage (slideIndex : Int) (slideCount : Nat) : String :=
  "slide index " ++ toString slideIndex ++ " is out of range (0-" ++
    toString ((slideCount : Int) - 1) ++ ")"

/-- UpdatePresentationSlide (drive.go), with the remote service modelled
explicitly: validates the id, reads the presentation, validates the slide
index, plans the rewrite, and submits the batch only when it is non-empty. -/
def UpdatePresentationSlide (remote : SlidesRemote) (presentationID : String)
    (slideIndex : Int) (title content : String) :
    Except GoError Unit × List RemoteCall :=
  if presentationID = "" then
    (Except.error (GoError.simple "presentation ID is empty"), [])
  else
    match remote.getResult with
    | Except.error e =>
        (Except.error (GoError.wrapped "failed to get presentation: " e),
         [RemoteCall.slidesGet presentationID])
    | Except.ok p =>
        if slideIndex < 0 ∨ (p.slides.length : Int) ≤ slideIndex then
          (Except.error (GoError.simple (outOfRangeMessage slideIndex p.slides.length)),
           [RemoteCall.slidesGet presentationID])
        else
          let slide := p.slides.getD slideIndex.toNat { pageElements := [] }
          let requests := planSlideRewrite slide title content
          if requests.length > 0 then
            match remote.batchResult with
            | Except.error e =>
                (Except.error (GoError.wrapped "failed to update presentation: " e),
                 [RemoteCall.slidesGet presentationID,
                  RemoteCall.slidesBatchUpdate presentationID requests])
            | Except.ok _ =>
                (Except.ok (),
                 [RemoteCall.slidesGet presentationID,
                  RemoteCall.slidesBatchUpdate presentationID requests])
          else
            (Except.ok (), [RemoteCall.slidesGet presentationID])

/-- Modelled from the spec: the Mutation Applicator, that is the remote
batch-update service, which is not part of this repository.  The document
text occupies the half-open global index range [1, length + 1); index 0 is
reserved.  A delete-range removes the characters of its half-open range and
an insert-text inserts at its location index; out-of-bounds requests are
rejected. -/
def applyRequest (s : List Char) : DocsRequest → Option (List Char)
  | DocsRequest.deleteContentRange r =>
      if 1 ≤ r.startIndex ∧ r.startIndex ≤ r.endIndex ∧ r.endIndex ≤ (s.length : Int) + 1 then
        some (s.take (r.startIndex - 1).toNat ++ s.drop (r.endIndex - 1).toNat)
      else none
  | DocsRequest.insertText i text =>
      if 1 ≤ i ∧ i ≤ (s.length : Int) + 1 then
        some (s.take (i - 1).toNat ++ text.data ++ s.drop (i - 1).toNat)
      else none

/-- Modelled from the spec: requests of one batch are applied strictly in
array order, each request's effect committing before the next is interpreted. -/
def applyBatch (reqs : List DocsRequest) (s : List Char) : Option (List Char) :=
  reqs.foldl (fun acc r => acc.bind fun st => applyRequest st r) (some s)

/-- Object identifiers of the text-bearing page elements, in element order
(spec glossary: text-bearing element). -/
def textBearingIds (l : List PageElement) : List String :=
  (l.filter fun e => e.hasText).map fun e => e.objectId

/-- One delete-all-text request per text-bearing element in original order,
as the spec words the clear step. -/
def textBearingClears (l : List PageElement) : List SlidesRequest :=
  (l.filter fun e => e.hasText).map fun e => SlidesRequest.deleteText e.objectId "ALL"

/-- Object identifiers of the shape-owning page elements, in element order. -/
def shapeIds (l : List PageElement) : List String :=
  (l.filter fun e => e.shape.isSome).map fun e => e.objectId

/-- Object identifiers targeted by the insert-text requests of a list. -/
def insertTargets (reqs : List SlidesRequest) : List String :=
  reqs.filterMap fun r =>
    match r with
    | SlidesRequest.insertText oid _ _ => some oid
    | _ => none

/-- The spec's wording of the end-index computation: the maximum element end
index, with accumulator 1. -/
def specEndIndex (doc : Document) : Int :=
  (doc.content.map fun e => e.endIndex).foldl max 1

/-- Membership of an index in a half-open range. -/
def rangeContains (r : DocsRange) (j : Int) : Prop :=
  r.startIndex ≤ j ∧ j < r.endIndex

instance (r : DocsRange) (j : Int) : Decidable (rangeContains r j) :=
  inferInstanceAs (Decidable (r.startIndex ≤ j ∧ j < r.endIndex))

/-- A value of a named MCP tool argument. -/
inductive ParamValue where
  | str (s : String)
  | num (n : Int)
  | other
  deriving DecidableEq

/-- An MCP tool call request: named arguments. -/
structure CallToolRequest where
  arguments : List (String × ParamValue)

/-- mcp RequireString: the named argument must be present and be a string. -/
def requireString (req : CallToolRequest) (key : String) : Except GoError String :=
  match req.arguments.lookup key with
  | some (ParamValue.str s) => Except.ok s
  | _ => Except.error (GoError.simple ("required argument \x27" ++ key ++ "\x27 not found"))

/-- mcp ParseInt with a default: the named argument when it is a number,
the default otherwise. -/
def parseIntArg (req : CallToolRequest) (key : String) (dflt : Int) : Int :=
  match req.arguments.lookup key with
  | some (ParamValue.num n) => n
  | _ => dflt

/-- A tool call result (mcp NewToolResultText / NewToolResultError). -/
inductive ToolResult where
  | text (s : String)
  | errorResult (s : String)
  deriving DecidableEq

/-- createUpdateDocumentHandler (main.go): the second component of the pair
is the handler's Go error return value. -/
def createUpdateDocumentHandler (svc : DocsRemote) (request : CallToolRequest) :
    ToolResult × Option GoError :=
  match requireString request "documentId" with
  | Except.error _ => (ToolResult.errorResult "Parameter \x27documentId\x27 is required", none)
  | Except.ok documentID =>
      match requireString request "content" with
      | Except.error _ => (ToolResult.errorResult "Parameter \x27content\x27 is required", none)
      | Except.ok content =>
          match (UpdateDocumentContent svc documentID content).1 with
          | Except.error e =>
              (ToolResult.errorResult ("Failed to update document: " ++ e.message), none)
          | Except.ok _ => (ToolResult.text "Document updated successfully", none)

/-- createUpdatePresentationHandler (main.go). -/
def createUpdatePresentationHandler (svc : SlidesRemote) (request : CallToolRequest) :
    ToolResult × Option GoError :=
  match requireString request "presentationId" with
  | Except.error _ =>
      (ToolResult.errorResult "Parameter \x27presentationId\x27 is required", none)
  | Except.ok presentationID =>
      let slideIndex := parseIntArg request "slideIndex" 0
      match requireString request "title" with
      | Except.error _ => (ToolResult.errorResult "Parameter \x27title\x27 is required", none)
      | Except.ok title =>
          match requireString request "content" with
          | Except.error _ =>
              (ToolResult.errorResult "Parameter \x27content\x27 is required", none)
          | Except.ok content =>
              match (UpdatePresentationSlide svc presentationID slideIndex title content).1 with
              | Except.error e =>
                  (ToolResult.errorResult ("Failed to update presentation: " ++ e.message), none)
              | Except.ok _ => (ToolResult.text "Presentation slide updated successfully", none)

/-- A minimal well-formed document: one paragraph element holding only the
structurally required trailing newline, end index 2. -/
def sampleDoc : Document :=
  { content := [{ endIndex := 2,
                  paragraph := some { elements := [{ textRun := some { content := "\n" } }] } }] }

/-- The fold of computeEndIndex never goes below its accumulator. -/
theorem le_foldl_endIndex (l : List StructuralElement) (a : Int) :
    a ≤ l.foldl (fun acc e => if e.endIndex > acc then e.endIndex else acc) a := by
  induction l generalizing a with
  | nil => exact le_refl a
  | cons e t ih =>
      simp only [List.foldl_cons]
      refine le_trans ?_ (ih _)
      split
      · omega
      · exact le_refl a

/-- The computed end index is at least the accumulator initialization 1. -/
theorem one_le_computeEndIndex (doc : Document) : 1 ≤ computeEndIndex doc :=
  le_foldl_endIndex doc.content 1

/-- The code's end-index fold agrees with the spec's maximum formulation. -/
theorem computeEndIndex_eq_specEndIndex (doc : Document) :
    computeEndIndex doc = specEndIndex doc := by
  unfold computeEndIndex specEndIndex
  rw [List.foldl_map]
  have hf : (fun (acc : Int) (e : StructuralElement) =>
      if e.endIndex > acc then e.endIndex else acc) =
      fun (acc : Int) (e : StructuralElement) => max acc e.endIndex := by
    funext acc e
    rcases lt_or_ge acc e.endIndex with h | h
    · rw [if_pos h, max_eq_right h.le]
    · rw [if_neg (not_lt.mpr h), max_eq_left h]
  rw [hf]

/-- Claim C4: planDocumentReplacement emits exactly the delete of
[1, endIndex - 1) followed by the insert of the new content at index 1,
where the end index is the maximum element end index with accumulator 1;
in particular a document spanning end index 50 with content Hello yields
the delete of [1, 49) and the insert of Hello at 1. -/
theorem planDocumentReplacement_two_requests :
    (∀ (doc : Document) (content : String),
        planDocumentReplacement doc content =
          [DocsRequest.deleteContentRange { startIndex := 1, endIndex := computeEndIndex doc - 1 },
           DocsRequest.insertText 1 content] ∧
        computeEndIndex doc = specEndIndex doc) ∧
    planDocumentReplacement { content := [{ endIndex := 50, paragraph := none }] } "Hello" =
      [DocsRequest.deleteContentRange { startIndex := 1, endIndex := 49 },
       DocsRequest.insertText 1 "Hello"] := by
  refine ⟨fun doc content => ⟨rfl, computeEndIndex_eq_specEndIndex doc⟩, ?_⟩
  decide

/-- Claim C3 counterexample: for a document with no structural elements the
computed end index is 1, so end index minus 1 is at most 1, yet the emitted
delete range has start 1 and end 0 — it is not clamped to start equal end. -/
theorem planDocumentReplacement_no_clamp_cex :
    computeEndIndex { content := [] } - 1 ≤ 1 ∧
    planDocumentReplacement { content := [] } "x" =
      [DocsRequest.deleteContentRange { startIndex := 1, endIndex := 0 },
       DocsRequest.insertText 1 "x"] ∧
    (1 : Int) ≠ 0 := by
  refine ⟨by decide, by decide, by decide⟩

/-- Claim C3 (amended): for a document whose computed end index minus 1 is at
most 1, the emitted delete range is exactly [1, endIndex - 1), whose end is 1
(a no-op with start equal end, when endIndex is 2) or 0 (an unclamped range
with start above end, when endIndex is 1); read as a half-open interval the
delete range contains neither index 0 nor the final reserved index unit. -/
theorem planDocumentReplacement_delete_range_bounds (doc : Document) (content : String)
    (h : computeEndIndex doc - 1 ≤ 1) :
    planDocumentReplacement doc content =
      [DocsRequest.deleteContentRange { startIndex := 1, endIndex := computeEndIndex doc - 1 },
       DocsRequest.insertText 1 content] ∧
    (computeEndIndex doc - 1 = 1 ∨ computeEndIndex doc - 1 = 0) ∧
    ¬ rangeContains { startIndex := 1, endIndex := computeEndIndex doc - 1 } 0 ∧
    ¬ rangeContains { startIndex := 1, endIndex := computeEndIndex doc - 1 }
        (computeEndIndex doc - 1) := by
  have h1 := one_le_computeEndIndex doc
  refine ⟨rfl, by omega, ?_, ?_⟩ <;>
    · simp only [rangeContains]
      omega

/-- Witness for the amended claim C3, at the empty document. -/
theorem planDocumentReplacement_delete_range_bounds_witness :
    planDocumentReplacement { content := [] } "x" =
      [DocsRequest.deleteContentRange
         { startIndex := 1, endIndex := computeEndIndex { content := [] } - 1 },
       DocsRequest.insertText 1 "x"] ∧
    (computeEndIndex { content := [] } - 1 = 1 ∨ computeEndIndex { content := [] } - 1 = 0) ∧
    ¬ rangeContains { startIndex := 1, endIndex := computeEndIndex { content := [] } - 1 } 0 ∧
    ¬ rangeContains { startIndex := 1, endIndex := computeEndIndex { content := [] } - 1 }
        (computeEndIndex { content := [] } - 1) :=
  planDocumentReplacement_delete_range_bounds { content := [] } "x" (by decide)

/-- Claim C8: with an empty resource identifier both mutating operations fail
with the invalid-argument error and their remote-call trace is empty, so
neither the structure read nor the batch write is attempted. -/
theorem empty_id_fails_before_remote_call (dremote : DocsRemote) (sremote : SlidesRemote)
    (content : String) (i : Int) (t c : String) :
    UpdateDocumentContent dremote "" content =
      (Except.error (GoError.simple "document ID is empty"), []) ∧
    UpdatePresentationSlide sremote "" i t c =
      (Except.error (GoError.simple "presentation ID is empty"), []) :=
  ⟨rfl, rfl⟩

/-- Claim C10: whenever the document read succeeds, the document path builds
a two-request batch and always submits it, whatever the document and content;
the slide path, by contrast, skips submission when its request list is empty. -/
theorem updateDocumentContent_always_submits_batch (doc : Document)
    (br : Except GoError Unit) (documentID content : String) (h : documentID ≠ "") :
    (planDocumentReplacement doc content).length = 2 ∧
    (UpdateDocumentContent { getResult := Except.ok doc, batchResult := br }
        documentID content).2 =
      [RemoteCall.docsGet documentID,
       RemoteCall.docsBatchUpdate documentID (planDocumentReplacement doc content)] ∧
    UpdatePresentationSlide
        { getResult := Except.ok { slides := [{ pageElements := [] }] },
          batchResult := Except.ok () } "p" 0 "t" "c" =
      (Except.ok (), [RemoteCall.slidesGet "p"]) := by
  refine ⟨rfl, ?_, rfl⟩
  unfold UpdateDocumentContent
  rw [if_neg h]
  cases br <;> rfl

/-- Witness for claim C10, at a concrete empty document and empty content. -/
theorem updateDocumentContent_always_submits_batch_witness :
    (planDocumentReplacement { content := [] } "").length = 2 ∧
    (UpdateDocumentContent
        { getResult := Except.ok { content := [] }, batchResult := Except.ok () } "d" "").2 =
      [RemoteCall.docsGet "d",
       RemoteCall.docsBatchUpdate "d" (planDocumentReplacement { content := [] } "")] ∧
    UpdatePresentationSlide
        { getResult := Except.ok { slides := [{ pageElements := [] }] },
          batchResult := Except.ok () } "p" 0 "t" "c" =
      (Except.ok (), [RemoteCall.slidesGet "p"]) :=
  updateDocumentContent_always_submits_batch { content := [] } (Except.ok ()) "d" "" (by decide)

/-- The code's clear loop equals the spec's filter-then-map formulation. -/
theorem clearRequests_eq_textBearingClears (l : List PageElement) :
    clearRequests l = textBearingClears l := by
  induction l with
  | nil => rfl
  | cons e t ih =>
      cases h : e.hasText <;>
        simp [clearRequests, textBearingClears, List.filterMap_cons, List.filter_cons, h] <;>
        simpa [clearRequests, textBearingClears] using ih

/-- Once the title slot is non-empty and the content slot empty, the inference
loop returns the title slot and the identifier of the first shape-owning
element (or the empty string when there is none). -/
theorem findRegions_title_set (l : List PageElement) (t : String) (ht : t ≠ "") :
    findRegions l t "" = (t, (shapeIds l).getD 0 "") := by
  induction l with
  | nil => rfl
  | cons e rest ih =>
      cases hs : e.shape with
      | some s => simp [findRegions, hs, ht, shapeIds, List.filter_cons]
      | none => simp [findRegions, hs, shapeIds, List.filter_cons, ih]

/-- With non-empty object identifiers, the inference loop designates the
first shape-owning element as title and the second as content (the empty
string standing for an absent region). -/
theorem findRegions_spec (l : List PageElement) (h : ∀ e ∈ l, e.objectId ≠ "") :
    findRegions l "" "" = ((shapeIds l).getD 0 "", (shapeIds l).getD 1 "") := by
  induction l with
  | nil => rfl
  | cons e rest ih =>
      have he : e.objectId ≠ "" := h e (List.mem_cons_self e rest)
      have hrest : ∀ x ∈ rest, x.objectId ≠ "" := fun x hx => h x (List.mem_cons_of_mem e hx)
      cases hs : e.shape with
      | some s =>
          simp only [findRegions, hs, if_true]
          rw [findRegions_title_set rest e.objectId he]
          simp [shapeIds, List.filter_cons, hs]
      | none =>
          simp only [findRegions, hs]
          rw [ih hrest]
          simp [shapeIds, List.filter_cons, hs]

/-- Insert targets distribute over request-list concatenation. -/
theorem insertTargets_append (l1 l2 : List SlidesRequest) :
    insertTargets (l1 ++ l2) = insertTargets l1 ++ insertTargets l2 := by
  simp [insertTargets, List.filterMap_append]

/-- Clear requests contribute no insert targets. -/
theorem insertTargets_clearRequests (l : List PageElement) :
    insertTargets (clearRequests l) = [] := by
  induction l with
  | nil => rfl
  | cons e t ih =>
      cases h : e.hasText <;>
        simp [clearRequests, insertTargets, List.filterMap_cons, h] <;>
        simpa [clearRequests, insertTargets] using ih

/-- planSlideRewrite decomposed into its three segments: the clears, the
conditional title insert, the conditional content insert. -/
theorem planSlideRewrite_decomp (slide : Slide) (t c : String) :
    planSlideRewrite slide t c =
      clearRequests slide.pageElements ++
        (if (findRegions slide.pageElements "" "").1 ≠ "" ∧ t ≠ "" then
          [SlidesRequest.insertText (findRegions slide.pageElements "" "").1 0 t]
        else []) ++
        (if (findRegions slide.pageElements "" "").2 ≠ "" ∧ c ≠ "" then
          [SlidesRequest.insertText (findRegions slide.pageElements "" "").2 0 c]
        else []) := by
  by_cases h1 : (findRegions slide.pageElements "" "").1 ≠ "" ∧ t ≠ "" <;>
    by_cases h2 : (findRegions slide.pageElements "" "").2 ≠ "" ∧ c ≠ "" <;>
    simp [planSlideRewrite, h1, h2, List.append_assoc]

/-- Claim C5: the request list is the clears, one per text-bearing element in
original page-element order, then the title insert at insertion index 0 when
a title region was found and the new title is non-empty, then the content
insert at insertion index 0 when a content region was found and the new
content is non-empty. -/
theorem planSlideRewrite_request_order (slide : Slide) (t c : String) :
    planSlideRewrite slide t c =
      textBearingClears slide.pageElements ++
        (if (findRegions slide.pageElements "" "").1 ≠ "" ∧ t ≠ "" then
          [SlidesRequest.insertText (findRegions slide.pageElements "" "").1 0 t]
        else []) ++
        (if (findRegions slide.pageElements "" "").2 ≠ "" ∧ c ≠ "" then
          [SlidesRequest.insertText (findRegions slide.pageElements "" "").2 0 c]
        else []) := by
  by_cases h1 : (findRegions slide.pageElements "" "").1 ≠ "" ∧ t ≠ "" <;>
    by_cases h2 : (findRegions slide.pageElements "" "").2 ≠ "" ∧ c ≠ "" <;>
    simp [planSlideRewrite, clearRequests_eq_textBearingClears, h1, h2, List.append_assoc]

/-- Claim C1 counterexample: on a slide whose first element owns a shape with
no text body, the text-bearing elements are B then C, yet the emitted inserts
target A and B: the designated title region A is not the first text-bearing
element B. -/
theorem titleRegion_not_first_textBearing_cex :
    textBearingIds
        [{ objectId := "A", shape := some { text := none } },
         { objectId := "B",
           shape := some { text := some { textElements :=
             [{ textRun := some { content := "Old Title" } }] } } },
         { objectId := "C",
           shape := some { text := some { textElements :=
             [{ textRun := some { content := "Old body" } }] } } }] = ["B", "C"] ∧
    insertTargets (planSlideRewrite
        { pageElements :=
            [{ objectId := "A", shape := some { text := none } },
             { objectId := "B",
               shape := some { text := some { textElements :=
                 [{ textRun := some { content := "Old Title" } }] } } },
             { objectId := "C",
               shape := some { text := some { textElements :=
                 [{ textRun := some { content := "Old body" } }] } } }] } "t" "c") =
      ["A", "B"] ∧
    ("A" : String) ≠ "B" := by
  refine ⟨by decide, by decide, by decide⟩

/-- Claim C1 (amended): provided every page element has a non-empty object
identifier, planSlideRewrite designates the first shape-owning element
(whether or not it owns a text body) as the title region and the second
shape-owning element as the content region, and the emitted insert requests
target only those two identifiers, so elements beyond the second shape-owning
element are never insertion targets. -/
theorem planSlideRewrite_designates_first_two_shapes (slide : Slide) (t c : String)
    (h : ∀ e ∈ slide.pageElements, e.objectId ≠ "") :
    findRegions slide.pageElements "" "" =
      ((shapeIds slide.pageElements).getD 0 "", (shapeIds slide.pageElements).getD 1 "") ∧
    insertTargets (planSlideRewrite slide t c) ⊆
      [(shapeIds slide.pageElements).getD 0 "", (shapeIds slide.pageElements).getD 1 ""] := by
  have hfr := findRegions_spec slide.pageElements h
  refine ⟨hfr, ?_⟩
  rw [planSlideRewrite_decomp, hfr]
  simp only [insertTargets_append, insertTargets_clearRequests, List.nil_append]
  intro x hx
  simp only [List.mem_append] at hx
  rcases hx with hx | hx <;> split at hx <;> simp_all [insertTargets]

/-- Witness for the amended claim C1, at a concrete three-element slide. -/
theorem planSlideRewrite_designates_first_two_shapes_witness :
    findRegions
        [{ objectId := "A", shape := some { text := none } },
         { objectId := "B",
           shape := some { text := some { textElements :=
             [{ textRun := some { content := "Old Title" } }] } } },
         { objectId := "C",
           shape := some { text := some { textElements :=
             [{ textRun := some { content := "Old body" } }] } } }] "" "" = ("A", "B") ∧
    insertTargets (planSlideRewrite
        { pageElements :=
            [{ objectId := "A", shape := some { text := none } },
             { objectId := "B",
               shape := some { text := some { textElements :=
                 [{ textRun := some { content := "Old Title" } }] } } },
             { objectId := "C",
               shape := some { text := some { textElements :=
                 [{ textRun := some { content := "Old body" } }] } } }] } "t" "c") ⊆
      ["A", "B"] :=
  planSlideRewrite_designates_first_two_shapes
    { pageElements :=
        [{ objectId := "A", shape := some { text := none } },
         { objectId := "B",
           shape := some { text := some { textElements :=
             [{ textRun := some { content := "Old Title" } }] } } },
         { objectId := "C",
           shape := some { text := some { textElements :=
             [{ textRun := some { content := "Old body" } }] } } }] } "t" "c" (by decide)

/-- Claim C2 counterexample: a slide with a single shape-owning element whose
shape has no text body contains zero text-bearing elements, yet the rewrite
with non-empty title and content emits an insert request, and the operation
submits a batch rather than being a no-op. -/
theorem planSlideRewrite_shape_without_text_cex :
    textBearingIds [{ objectId := "A", shape := some { text := none } }] = [] ∧
    planSlideRewrite
        { pageElements := [{ objectId := "A", shape := some { text := none } }] } "t" "c" =
      [SlidesRequest.insertText "A" 0 "t"] ∧
    UpdatePresentationSlide
        { getResult := Except.ok { slides :=
            [{ pageElements := [{ objectId := "A", shape := some { text := none } }] }] },
          batchResult := Except.ok () } "p" 0 "t" "c" =
      (Except.ok (),
       [RemoteCall.slidesGet "p",
        RemoteCall.slidesBatchUpdate "p" [SlidesRequest.insertText "A" 0 "t"]]) := by
  refine ⟨by decide, by decide, rfl⟩

/-- A list of page elements none of which owns a shape produces no clears. -/
theorem clearRequests_of_no_shape (l : List PageElement) (h : ∀ e ∈ l, e.shape = none) :
    clearRequests l = [] := by
  induction l with
  | nil => rfl
  | cons e rest ih =>
      have he := h e (List.mem_cons_self e rest)
      have hrest : ∀ x ∈ rest, x.shape = none := fun x hx => h x (List.mem_cons_of_mem e hx)
      have ih2 := ih hrest
      simp only [clearRequests] at ih2 ⊢
      simp [List.filterMap_cons, PageElement.hasText, he, ih2]
      intro a ha
      simp [PageElement.hasText, hrest a ha]

/-- A list of page elements none of which owns a shape leaves both region
slots unchanged. -/
theorem findRegions_of_no_shape (l : List PageElement) (h : ∀ e ∈ l, e.shape = none)
    (t c : String) : findRegions l t c = (t, c) := by
  induction l generalizing t c with
  | nil => rfl
  | cons e rest ih =>
      have he := h e (List.mem_cons_self e rest)
      have hrest : ∀ x ∈ rest, x.shape = none := fun x hx => h x (List.mem_cons_of_mem e hx)
      simp [findRegions, he, ih hrest]

/-- Claim C2 (amended): a slide none of whose page elements owns a shape
yields an empty request list whatever the new title and content; and whenever
the planned request list is empty, the operation issues no batch update and
returns success as a no-op. -/
theorem planSlideRewrite_no_shape_noop :
    (∀ (slide : Slide) (t c : String), (∀ e ∈ slide.pageElements, e.shape = none) →
        planSlideRewrite slide t c = []) ∧
    (∀ (remote : SlidesRemote) (pid : String) (i : Int) (t c : String) (p : Presentation),
        pid ≠ "" → remote.getResult = Except.ok p →
        ¬ (i < 0 ∨ (p.slides.length : Int) ≤ i) →
        planSlideRewrite (p.slides.getD i.toNat { pageElements := [] }) t c = [] →
        UpdatePresentationSlide remote pid i t c =
          (Except.ok (), [RemoteCall.slidesGet pid])) := by
  constructor
  · intro slide t c hsh
    simp [planSlideRewrite, clearRequests_of_no_shape slide.pageElements hsh,
      findRegions_of_no_shape slide.pageElements hsh]
  · intro remote pid i t c p hpid hget hin hreq
    unfold UpdatePresentationSlide
    rw [if_neg hpid, hget]
    simp only [if_neg hin]
    rw [hreq]
    rfl

/-- Witness for the amended claim C2, at a slide with one shapeless element. -/
theorem planSlideRewrite_no_shape_noop_witness :
    planSlideRewrite
        { pageElements := [{ objectId := "x", shape := none }] } "t" "c" = [] ∧
    UpdatePresentationSlide
        { getResult := Except.ok { slides :=
            [{ pageElements := [{ objectId := "x", shape := none }] }] },
          batchResult := Except.ok () } "p" 0 "t" "c" =
      (Except.ok (), [RemoteCall.slidesGet "p"]) := by
  refine ⟨planSlideRewrite_no_shape_noop.1 _ "t" "c" (by decide), ?_⟩
  exact planSlideRewrite_no_shape_noop.2 _ "p" 0 "t" "c" _ (by decide) rfl (by decide)
    (planSlideRewrite_no_shape_noop.1 _ "t" "c" (by decide))

/-- Claim C7: with a non-empty presentation identifier and a successful read,
the operation returns the out-of-range error for the slide index exactly when
the index is outside [0, slideCount); the error message states the valid
0-based bound, from 0 to slideCount minus one. -/
theorem updatePresentationSlide_out_of_range_iff (remote : SlidesRemote) (pid : String)
    (p : Presentation) (i : Int) (t c : String) (hpid : pid ≠ "")
    (hget : remote.getResult = Except.ok p) :
    (UpdatePresentationSlide remote pid i t c).1 =
        Except.error (GoError.simple (outOfRangeMessage i p.slides.length)) ↔
      (i < 0 ∨ (p.slides.length : Int) ≤ i) := by
  unfold UpdatePresentationSlide
  rw [if_neg hpid, hget]
  by_cases hb : i < 0 ∨ (p.slides.length : Int) ≤ i
  · simp [hb]
  · dsimp only
    rw [if_neg hb]
    simp only [iff_false_intro hb, iff_false]
    intro hcon
    split at hcon
    · split at hcon <;> simp at hcon
    · simp at hcon

/-- Witness for claim C7: a one-slide presentation with slide index 1 (equal
to the slide count) fails with the out-of-range message. -/
theorem updatePresentationSlide_out_of_range_iff_witness :
    (UpdatePresentationSlide
        { getResult := Except.ok { slides := [{ pageElements := [] }] },
          batchResult := Except.ok () } "p" 1 "" "").1 =
      Except.error (GoError.simple (outOfRangeMessage 1 1)) :=
  (updatePresentationSlide_out_of_range_iff
      { getResult := Except.ok { slides := [{ pageElements := [] }] },
        batchResult := Except.ok () } "p" { slides := [{ pageElements := [] }] }
      1 "" "" (by decide) rfl).mpr (by decide)

/-- Dropping all characters but the last yields the singleton on the last. -/
theorem drop_length_sub_one_eq {α : Type} (s : List α) (ch : α)
    (h : s.getLast? = some ch) : s.drop (s.length - 1) = [ch] := by
  induction s with
  | nil => simp at h
  | cons a t ih =>
      cases t with
      | nil => simp at h; simp [h]
      | cons b u =>
          have h2 : (b :: u).getLast? = some ch := by
            rwa [List.getLast?_cons_cons] at h
          have hlen : (a :: b :: u).length - 1 = u.length + 1 := by
            simp
          rw [hlen, List.drop_succ_cons]
          have := ih h2
          simpa using this

/-- Claim C6 counterexample: on the minimal document whose text is a single
newline, replacing with Hello and re-extracting yields Hello plus the
preserved trailing newline, not Hello itself. -/
theorem document_roundtrip_cex :
    applyBatch (planDocumentReplacement sampleDoc "Hello") (extractText sampleDoc).data ≠
      some "Hello".data := by decide

/-- Claim C6 (amended): for every document whose extracted text fills the
index space below the computed end index, has end index at least 2, and ends
with the reserved newline, applying the replacement batch yields the new
content followed by that trailing newline — the round trip appends a newline
rather than returning the content exactly. -/
theorem document_roundtrip_appends_newline (D : Document) (T : String)
    (h1 : ((extractText D).data.length : Int) = computeEndIndex D - 1)
    (h2 : 2 ≤ computeEndIndex D)
    (h3 : (extractText D).data.getLast? = some '\n') :
    applyBatch (planDocumentReplacement D T) (extractText D).data =
      some (T.data ++ ['\n']) := by
  have hdel : applyRequest (extractText D).data
      (DocsRequest.deleteContentRange
        { startIndex := 1, endIndex := computeEndIndex D - 1 }) = some ['\n'] := by
    unfold applyRequest
    dsimp only
    rw [if_pos ⟨le_refl 1, by omega, by omega⟩]
    have ht : ((1 : Int) - 1).toNat = 0 := rfl
    have hd : (computeEndIndex D - 1 - 1).toNat = (extractText D).data.length - 1 := by
      omega
    rw [ht, hd, List.take_zero, List.nil_append,
      drop_length_sub_one_eq (extractText D).data _ h3]
  have hins : applyRequest ['\n'] (DocsRequest.insertText 1 T) =
      some (T.data ++ ['\n']) := by
    unfold applyRequest
    dsimp only
    rw [if_pos ⟨le_refl 1, by omega⟩]
    simp
  simp [applyBatch, planDocumentReplacement, hdel, hins]

/-- Witness for the amended claim C6, at the minimal document and content Hi. -/
theorem document_roundtrip_appends_newline_witness :
    applyBatch (planDocumentReplacement sampleDoc "Hi") (extractText sampleDoc).data =
      some ("Hi".data ++ ['\n']) :=
  document_roundtrip_appends_newline sampleDoc "Hi" (by decide) (by decide) (by decide)
/-- Claim C9: both mutation tool handlers always return a nil Go error, and
their result is either the fixed success acknowledgment text or an error
text that is exactly one of the fixed required-parameter messages or the
operation-failure message embedding the upstream error rendering; no fault
propagates out of a handler. -/
theorem handlers_return_text_never_fault (dsvc : DocsRemote) (ssvc : SlidesRemote)
    (req : CallToolRequest) :
    (createUpdateDocumentHandler dsvc req).2 = none ∧
    (createUpdatePresentationHandler ssvc req).2 = none ∧
    ((createUpdateDocumentHandler dsvc req).1 =
        ToolResult.text "Document updated successfully" ∨
      (createUpdateDocumentHandler dsvc req).1 =
        ToolResult.errorResult "Parameter \x27documentId\x27 is required" ∨
      (createUpdateDocumentHandler dsvc req).1 =
        ToolResult.errorResult "Parameter \x27content\x27 is required" ∨
      ∃ documentID content e,
        requireString req "documentId" = Except.ok documentID ∧
        requireString req "content" = Except.ok content ∧
        (UpdateDocumentContent dsvc documentID content).1 = Except.error e ∧
        (createUpdateDocumentHandler dsvc req).1 =
          ToolResult.errorResult ("Failed to update document: " ++ e.message)) ∧
    ((createUpdatePresentationHandler ssvc req).1 =
        ToolResult.text "Presentation slide updated successfully" ∨
      (createUpdatePresentationHandler ssvc req).1 =
        ToolResult.errorResult "Parameter \x27presentationId\x27 is required" ∨
      (createUpdatePresentationHandler ssvc req).1 =
        ToolResult.errorResult "Parameter \x27title\x27 is required" ∨
      (createUpdatePresentationHandler ssvc req).1 =
        ToolResult.errorResult "Parameter \x27content\x27 is required" ∨
      ∃ presentationID title content e,
        requireString req "presentationId" = Except.ok presentationID ∧
        requireString req "title" = Except.ok title ∧
        requireString req "content" = Except.ok content ∧
        (UpdatePresentationSlide ssvc presentationID
            (parseIntArg req "slideIndex" 0) title content).1 = Except.error e ∧
        (createUpdatePresentationHandler ssvc req).1 =
          ToolResult.errorResult ("Failed to update presentation: " ++ e.message)) := by
  refine ⟨?_, ?_, ?_, ?_⟩
  · unfold createUpdateDocumentHandler
    repeat' split
    all_goals rfl
  · unfold createUpdatePresentationHandler
    dsimp only
    repeat' split
    all_goals rfl
  · rcases h1 : requireString req "documentId" with e1 | documentID
    · simp [createUpdateDocumentHandler, h1]
    · rcases h2 : requireString req "content" with e2 | content
      · simp [createUpdateDocumentHandler, h1, h2]
      · rcases h3 : (UpdateDocumentContent dsvc documentID content).1 with e | u
        · refine Or.inr (Or.inr (Or.inr ⟨documentID, content, e, rfl, rfl, h3, ?_⟩))
          simp [createUpdateDocumentHandler, h1, h2, h3]
        · exact Or.inl (by simp [createUpdateDocumentHandler, h1, h2, h3])
  · rcases h1 : requireString req "presentationId" with e1 | presentationID
    · simp [createUpdatePresentationHandler, h1]
    · rcases h2 : requireString req "title" with e2 | title
      · simp [createUpdatePresentationHandler, h1, h2]
      · rcases h3 : requireString req "content" with e3 | content
        · simp [createUpdatePresentationHandler, h1, h2, h3]
        · rcases h4 : (UpdatePresentationSlide ssvc presentationID
              (parseIntArg req "slideIndex" 0) title content).1 with e | u
          · refine Or.inr (Or.inr (Or.inr (Or.inr
              ⟨presentationID, title, content, e, rfl, rfl, rfl, h4, ?_⟩)))
            simp [createUpdatePresentationHandler, h1, h2, h3, h4]
          · exact Or.inl (by simp [createUpdatePresentationHandler, h1, h2, h3, h4])
